import Mathlib

/-!
# Budget Planner — verification of the core engine

Shallow embedding of the budget ledger engine of the `budget_planner`
repository: the tax calculator (`src/utils/incomeCalculator.ts`), the pure
snapshot-based category operations (`createCategory` / `updateCategory` /
`deleteCategory` in `src/utils/incomeCalculator.ts`), the expense operations
(`addExpense` / `updateExpense` / `deleteExpense` / `getExpensesByCategory`
in the expense tracker utility), the input validators (the validation
utility), and the optimistic-update reducer of the `ExpenseTracker`
component.  JavaScript numbers are modelled as exact rationals `ℚ`; the
`Math.round(x*100)/100` rounding idiom is modelled by `round2`; fresh ids
produced by the id generators (`Date.now()` + `Math.random()`) are modelled
as explicit parameters; functions that `throw` are modelled with `Except`.
-/

namespace BudgetPlanner

/-- JavaScript whitespace test for the characters that occur in this
development (space, tab, newline, carriage return). -/
def isWsChar (c : Char) : Bool :=
  c == ' ' || c == '\t' || c == '\n' || c == '\r'

/-- Model of JavaScript `String.prototype.trim`: drop leading and trailing
whitespace. -/
def jsTrim (s : String) : String :=
  String.mk (((s.data.dropWhile isWsChar).reverse.dropWhile isWsChar).reverse)

/-- Model of JavaScript `String.prototype.toLowerCase` (ASCII case folding,
which covers the strings handled by the app). -/
def jsToLower (s : String) : String :=
  String.mk (s.data.map Char.toLower)

/-- Model of the JavaScript idiom `Math.round(x * 100) / 100` used throughout
the tax calculator: round half-up at the cent (JS `Math.round(y) = ⌊y + 1/2⌋`). -/
def round2 (x : ℚ) : ℚ :=
  ((⌊x * 100 + 1 / 2⌋ : ℤ) : ℚ) / 100

/-! ## Tax calculator (`src/utils/incomeCalculator.ts`) -/

/-- `calculateSHA`: SHA deduction, 2.75% of gross pay rounded to the cent. -/
def calculateSHA (grossPay : ℚ) : ℚ :=
  let SHA_RATE : ℚ := 0.0275
  round2 (grossPay * SHA_RATE)

/-- `calculatePAYEE`: progressive bracket tax minus the personal relief,
floored at zero. -/
def calculatePAYEE (grossPay : ℚ) : ℚ :=
  let PERSONAL_RELIEF : ℚ := 2400
  let BRACKET_1_LIMIT : ℚ := 24000
  let BRACKET_2_LIMIT : ℚ := 32333
  let tax : ℚ :=
    if grossPay ≤ BRACKET_1_LIMIT then
      grossPay * 0.10
    else if grossPay ≤ BRACKET_2_LIMIT then
      BRACKET_1_LIMIT * 0.10 + (grossPay - BRACKET_1_LIMIT) * 0.25
    else
      BRACKET_1_LIMIT * 0.10 + (BRACKET_2_LIMIT - BRACKET_1_LIMIT) * 0.25 +
        (grossPay - BRACKET_2_LIMIT) * 0.30
  let payeeAfterRelief := tax - PERSONAL_RELIEF
  max 0 (round2 payeeAfterRelief)

/-- `calculateHousingLevy`: housing levy, 1.5% of gross pay rounded to the cent. -/
def calculateHousingLevy (grossPay : ℚ) : ℚ :=
  let HOUSING_LEVY_RATE : ℚ := 0.015
  round2 (grossPay * HOUSING_LEVY_RATE)

/-- The `PayBreakdown` value object. -/
structure PayBreakdown where
  grossPay : ℚ
  sha : ℚ
  payee : ℚ
  housingLevy : ℚ
  totalDeductions : ℚ
  netPay : ℚ
deriving Repr, DecidableEq

/-- `calculateNetPay`: orchestrates the three deductions and produces the
full breakdown. -/
def calculateNetPay (grossPay : ℚ) : PayBreakdown :=
  let sha := calculateSHA grossPay
  let payee := calculatePAYEE grossPay
  let housingLevy := calculateHousingLevy grossPay
  let totalDeductions := round2 (sha + payee + housingLevy)
  let netPay := round2 (grossPay - totalDeductions)
  { grossPay := grossPay
    sha := sha
    payee := payee
    housingLevy := housingLevy
    totalDeductions := totalDeductions
    netPay := netPay }

/-! ## Input validators (validation utility) -/

/-- The `ValidationResult` shape of the validation utility. -/
structure ValidationResult where
  isValid : Bool
  error : Option String := none
deriving Repr, DecidableEq

/-- `validateGrossPay` on an already-numeric value (the string-parsing and
NaN branches concern form input, which is outside the rational model). -/
def validateGrossPay (value : ℚ) : ValidationResult :=
  if value < 0 then
    { isValid := false, error := some "Gross pay must be a positive number" }
  else if value > 10000000 then
    { isValid := false
      error := some "Gross pay seems unusually high. Please verify the amount" }
  else
    { isValid := true }

/-- `validateCategoryName`: length bounds, duplicate check and the
forbidden-character check of the validation utility. -/
def validateCategoryName (name : String) (existingNames : List String) :
    ValidationResult :=
  if (jsTrim name).length == 0 then
    { isValid := false, error := some "Category name is required" }
  else if (jsTrim name).length < 2 then
    { isValid := false
      error := some "Category name must be at least 2 characters long" }
  else if (jsTrim name).length > 50 then
    { isValid := false
      error := some "Category name must be less than 50 characters" }
  else if existingNames.any (fun existingName =>
      jsToLower existingName == jsToLower (jsTrim name)) then
    { isValid := false, error := some "Category name already exists" }
  else if name.data.any (fun c =>
      c == '<' || c == '>' || c == '\"' || c == '\'' || c == '&') then
    { isValid := false, error := some "Category name contains invalid characters" }
  else
    { isValid := true }

/-! ## Ledger data model -/

/-- An `Expense` record; `date` holds the ISO string stored by the code. -/
structure Expense where
  id : String
  categoryId : String
  amount : ℚ
  description : String
  date : String
deriving Repr, DecidableEq, Inhabited

/-- A budget `Category` owning its expenses. -/
structure Category where
  id : String
  name : String
  plannedAmount : ℚ
  actualSpent : ℚ
  expenses : List Expense
deriving Repr, DecidableEq, Inhabited

/-- The error taxonomy of the ledger operations, with the message the code
throws. -/
inductive LedgerError where
  | validationError (msg : String)
  | duplicateName (msg : String)
  | notFound (msg : String)
deriving Repr, DecidableEq

/-- The `reduce((total, expense) => total + expense.amount, 0)` fold used by
the expense operations to recompute `actualSpent`. -/
def sumAmounts (es : List Expense) : ℚ :=
  es.foldl (fun total expense => total + expense.amount) 0

/-! ## Category operations (pure snapshot versions, `src/utils/incomeCalculator.ts`) -/

/-- `createCategory(categories, name, plannedAmount)`; the fresh id produced
by `generateCategoryId()` is passed in as `newId`. -/
def createCategory (categories : List Category) (name : String)
    (plannedAmount : ℚ) (newId : String) : Except LedgerError (List Category) :=
  if (jsTrim name).length == 0 then
    .error (.validationError "Category name cannot be empty")
  else
    let trimmedName := jsTrim name
    if categories.any (fun category =>
        jsToLower category.name == jsToLower trimmedName) then
      .error (.duplicateName "Category name already exists")
    else if plannedAmount < 0 then
      .error (.validationError "Planned amount must be a positive number")
    else
      .ok (categories ++ [{ id := newId, name := trimmedName, plannedAmount := plannedAmount, actualSpent := 0, expenses := [] }])

/-- `updateCategory(categories, id, name, plannedAmount)`: find the category,
validate, check duplicates excluding the edited index, replace in place. -/
def updateCategory (categories : List Category) (id : String) (name : String)
    (plannedAmount : ℚ) : Except LedgerError (List Category) :=
  match categories.findIdx? (fun category => category.id == id) with
  | none => .error (.notFound "Category not found")
  | some categoryIndex =>
    if (jsTrim name).length == 0 then
      .error (.validationError "Category name cannot be empty")
    else
      let trimmedName := jsTrim name
      if categories.enum.any (fun p =>
          p.1 != categoryIndex && jsToLower p.2.name == jsToLower trimmedName) then
        .error (.duplicateName "Category name already exists")
      else if plannedAmount < 0 then
        .error (.validationError "Planned amount must be a positive number")
      else
        let oldCategory := categories.getD categoryIndex default
        .ok (categories.set categoryIndex
          { oldCategory with name := trimmedName, plannedAmount := plannedAmount })

/-- `deleteCategory(categories, id)`: existence check, then filter. -/
def deleteCategory (categories : List Category) (id : String) :
    Except LedgerError (List Category) :=
  if categories.any (fun category => category.id == id) then
    .ok (categories.filter (fun category => category.id != id))
  else
    .error (.notFound "Category not found")

/-! ## Expense operations (expense tracker utility) -/

/-- `addExpense(categories, categoryId, amount, description, date)`; the
fresh id from `generateExpenseId()` is passed in as `newId` and the stored
`date.toISOString()` as the string `date`. -/
def addExpense (categories : List Category) (categoryId : String) (amount : ℚ)
    (description : String) (date : String) (newId : String) :
    Except LedgerError (List Category) :=
  if amount ≤ 0 then
    .error (.validationError "Expense amount must be a positive number")
  else if (jsTrim description).length == 0 then
    .error (.validationError "Expense description cannot be empty")
  else
    match categories.findIdx? (fun category => category.id == categoryId) with
    | none => .error (.notFound "Category not found")
    | some categoryIndex =>
      let newExpense : Expense := { id := newId, categoryId := categoryId, amount := amount, description := jsTrim description, date := date }
      let category := categories.getD categoryIndex default
      let newExpenses := category.expenses ++ [newExpense]
      .ok (categories.set categoryIndex
        { category with expenses := newExpenses, actualSpent := sumAmounts newExpenses })

/-- `updateExpense(categories, expenseId, amount, description, date)`: scan
the categories for the owning category and the expense index, replace the
expense's fields, recompute `actualSpent`. -/
def updateExpense (categories : List Category) (expenseId : String)
    (amount : ℚ) (description : String) (date : String) :
    Except LedgerError (List Category) :=
  if amount ≤ 0 then
    .error (.validationError "Expense amount must be a positive number")
  else if (jsTrim description).length == 0 then
    .error (.validationError "Expense description cannot be empty")
  else
    match categories.findIdx? (fun category =>
        category.expenses.any (fun expense => expense.id == expenseId)) with
    | none => .error (.notFound "Expense not found")
    | some categoryIndex =>
      let category := categories.getD categoryIndex default
      match category.expenses.findIdx? (fun expense => expense.id == expenseId) with
      | none => .error (.notFound "Expense not found")
      | some expenseIndex =>
        let oldExpense := category.expenses.getD expenseIndex default
        let newExpenses := category.expenses.set expenseIndex
          { oldExpense with amount := amount, description := jsTrim description, date := date }
        .ok (categories.set categoryIndex
          { category with expenses := newExpenses, actualSpent := sumAmounts newExpenses })

/-- `deleteExpense(categories, expenseId)`: locate the owning category,
filter the expense out, recompute `actualSpent`. -/
def deleteExpense (categories : List Category) (expenseId : String) :
    Except LedgerError (List Category) :=
  match categories.findIdx? (fun category =>
      category.expenses.any (fun expense => expense.id == expenseId)) with
  | none => .error (.notFound "Expense not found")
  | some categoryIndex =>
    let category := categories.getD categoryIndex default
    let newExpenses := category.expenses.filter
      (fun expense => expense.id != expenseId)
    .ok (categories.set categoryIndex
      { category with expenses := newExpenses, actualSpent := sumAmounts newExpenses })

/-- `getExpensesByCategory(categories, categoryId)`. -/
def getExpensesByCategory (categories : List Category) (categoryId : String) :
    Except LedgerError (List Expense) :=
  match categories.find? (fun category => category.id == categoryId) with
  | none => .error (.notFound "Category not found")
  | some category => .ok category.expenses

/-! ## Operation sequences over the ledger -/

/-- One ledger operation with all its inputs (fresh ids included). -/
inductive LedgerOp where
  | createCat (name : String) (plannedAmount : ℚ) (newId : String)
  | updateCat (id : String) (name : String) (plannedAmount : ℚ)
  | deleteCat (id : String)
  | addExp (categoryId : String) (amount : ℚ) (description : String)
      (date : String) (newId : String)
  | updateExp (expenseId : String) (amount : ℚ) (description : String)
      (date : String)
  | deleteExp (expenseId : String)
deriving Repr, DecidableEq

/-- Dispatch one operation. -/
def applyOp (categories : List Category) : LedgerOp → Except LedgerError (List Category)
  | .createCat name plannedAmount newId => createCategory categories name plannedAmount newId
  | .updateCat id name plannedAmount => updateCategory categories id name plannedAmount
  | .deleteCat id => deleteCategory categories id
  | .addExp categoryId amount description date newId =>
      addExpense categories categoryId amount description date newId
  | .updateExp expenseId amount description date =>
      updateExpense categories expenseId amount description date
  | .deleteExp expenseId => deleteExpense categories expenseId

/-- Run a sequence of operations, stopping at the first failure. -/
def applyOps (categories : List Category) : List LedgerOp → Except LedgerError (List Category)
  | [] => .ok categories
  | op :: ops =>
    match applyOp categories op with
    | .ok categories' => applyOps categories' ops
    | .error e => .error e

/-- The ledger invariant: every category's `actualSpent` equals the sum of
its expenses' amounts. -/
def LedgerInvariant (categories : List Category) : Prop :=
  ∀ c ∈ categories, c.actualSpent = sumAmounts c.expenses

/-! ## Optimistic updates (`ExpenseTracker` component) -/

/-- The action shape fed to the `useOptimistic` reducer of the
`ExpenseTracker` component; the optional fields of the TS action object are
the payload of each variant. -/
inductive ExpenseAction where
  | add (categoryId : String) (amount : ℚ) (description : String)
      (date : String) (newId : String)
  | update (expenseId : String) (amount : ℚ) (description : String)
      (date : String)
  | delete (expenseId : String)
deriving Repr, DecidableEq

/-- The `useOptimistic` reducer of the `ExpenseTracker` component: apply the
corresponding expense operation to the current categories; the JS truthiness
guards on the action fields and the `catch` that returns the current state on
any thrown error are modelled by the guards and the `.error` fallthrough. -/
def optimisticReducer (currentCategories : List Category)
    (action : ExpenseAction) : List Category :=
  match action with
  | .add categoryId amount description date newId =>
    if categoryId ≠ "" ∧ amount ≠ 0 ∧ description ≠ "" ∧ date ≠ "" then
      match addExpense currentCategories categoryId amount description date newId with
      | .ok categories' => categories'
      | .error _ => currentCategories
    else currentCategories
  | .update expenseId amount description date =>
    if expenseId ≠ "" ∧ amount ≠ 0 ∧ description ≠ "" ∧ date ≠ "" then
      match updateExpense currentCategories expenseId amount description date with
      | .ok categories' => categories'
      | .error _ => currentCategories
    else currentCategories
  | .delete expenseId =>
    if expenseId ≠ "" then
      match deleteExpense currentCategories expenseId with
      | .ok categories' => categories'
      | .error _ => currentCategories
    else currentCategories

/-- The reconciler's view of a durable-write attempt. -/
inductive PersistResult where
  | ok
  | failed
deriving Repr, DecidableEq

/-- The three phases of an in-flight optimistic mutation. -/
inductive MutationPhase where
  | speculative
  | committed
  | rolledBack
deriving Repr, DecidableEq

/-- The error surfaced by the reconciler on a failed durable write. -/
inductive ReconcileError where
  | persistenceError
deriving Repr, DecidableEq

/-- An in-flight optimistic mutation: the confirmed baseline it was issued
against and the speculative snapshot published immediately. -/
structure InFlightMutation where
  baseline : List Category
  speculative : List Category
deriving Repr, DecidableEq

/-- The reconciler's outcome: the visible snapshot, the new committed
baseline, the final phase, and the surfaced error, if any. -/
structure ReconcileOutcome where
  visible : List Category
  newBaseline : List Category
  phase : MutationPhase
  error : Option ReconcileError
deriving Repr, DecidableEq

/-- Modelled from the spec: the speculative-apply step of the optimistic
reconciler (§4.4).  The rollback machinery itself is provided by React's
`useOptimistic`/`useTransition` and is not part of the repository's sources;
only the reducer above is.  Step (1)+(2): apply the mutation to the current
confirmed snapshot and publish the result as the visible state. -/
def beginMutation (baseline : List Category) (action : ExpenseAction) :
    InFlightMutation :=
  { baseline := baseline, speculative := optimisticReducer baseline action }

/-- Modelled from the spec: steps (4a)/(4b) of the optimistic reconciler
(§4.4).  On success the speculative snapshot becomes the new committed
baseline; on failure the speculative snapshot is discarded, the visible
state reverts to the last committed baseline, and a `PersistenceError` is
surfaced to the caller. -/
def settleMutation (m : InFlightMutation) (result : PersistResult) :
    ReconcileOutcome :=
  match result with
  | .ok =>
    { visible := m.speculative, newBaseline := m.speculative,
      phase := .committed, error := none }
  | .failed =>
    { visible := m.baseline, newBaseline := m.baseline,
      phase := .rolledBack, error := some .persistenceError }

/-! ## Spec-side tax formulas (for the refinement claims)

These two definitions follow the wording of the specification, to be
compared with the source-derived `calculatePAYEE`. -/

/-- Modelled from the spec's wording: raw tax as the sum of bracket
contributions, the boundary values `24000` and `32333` belonging to the
lower bracket. -/
def rawTaxSpec (g : ℚ) : ℚ :=
  if g ≤ 24000 then 0.10 * g
  else if g ≤ 32333 then 2400 + 0.25 * (g - 24000)
  else 2400 + 0.25 * 8333 + 0.30 * (g - 32333)

/-- Modelled from the spec's wording: `max(0, round2(rawTax − relief))` with
`relief = 2400`. -/
def payeeSpec (g : ℚ) : ℚ :=
  max 0 (round2 (rawTaxSpec g - 2400))

/-- Frame condition for the expense operations: exactly one position of the
snapshot is rewritten, every other category is untouched, and the rewritten
category keeps its `id`, `name` and `plannedAmount`. -/
def FramePreserved (cs cs' : List Category) : Prop :=
  cs'.length = cs.length ∧
  ∃ i, i < cs.length ∧
    (∀ j, j ≠ i → cs'[j]? = cs[j]?) ∧
    (cs'.getD i default).id = (cs.getD i default).id ∧
    (cs'.getD i default).name = (cs.getD i default).name ∧
    (cs'.getD i default).plannedAmount = (cs.getD i default).plannedAmount

/-! ## Rounding lemmas -/

/-- `round2` moves its argument by at most half a cent. -/
theorem abs_round2_sub_le (x : ℚ) : |round2 x - x| ≤ 1 / 200 := by
  have h1 := Int.floor_le (x * 100 + 1 / 2)
  have h2 := Int.lt_floor_add_one (x * 100 + 1 / 2)
  rw [abs_le]
  unfold round2
  constructor <;> linarith

/-- `round2` preserves non-negativity. -/
theorem round2_nonneg {x : ℚ} (hx : 0 ≤ x) : 0 ≤ round2 x := by
  unfold round2
  have h : (0 : ℤ) ≤ ⌊x * 100 + 1 / 2⌋ := by
    apply Int.le_floor.mpr
    push_cast
    linarith
  positivity

/-! ## Claim theorems: tax calculator -/

/-- C2: for every gross pay `g ≥ 0`, `calculatePAYEE g` equals
`max 0 (round2 (rawTax − 2400))` with the bracket formula of the spec
(upper bounds `24000` and `32333` inclusive in the lower bracket), and in
particular `calculatePAYEE 24000 = 0` and `32333` is still taxed in the
second bracket, giving `2083.25`. -/
theorem calculatePAYEE_matches_spec (g : ℚ) (hg : 0 ≤ g) :
    calculatePAYEE g = payeeSpec g ∧
    calculatePAYEE 24000 = 0 ∧
    calculatePAYEE 32333 = 2083.25 := by
  refine ⟨?_, ?_, ?_⟩
  · simp only [calculatePAYEE, payeeSpec, rawTaxSpec]
    split_ifs with h1 h2
    · have h : g * 0.10 - 2400 = 0.10 * g - 2400 := by ring
      rw [h]
    · have h : (24000 : ℚ) * 0.10 + (g - 24000) * 0.25 - 2400 =
          2400 + 0.25 * (g - 24000) - 2400 := by norm_num; ring
      rw [h]
    · have h : (24000 : ℚ) * 0.10 + (32333 - 24000) * 0.25 +
          (g - 32333) * 0.30 - 2400 =
          2400 + 0.25 * 8333 + 0.30 * (g - 32333) - 2400 := by norm_num; ring
      rw [h]
  · norm_num [calculatePAYEE, round2]
  · norm_num [calculatePAYEE, round2]

/-- C2 witness: the equality and the boundary facts at the concrete input
`g = 24000`. -/
theorem calculatePAYEE_matches_spec_witness :
    calculatePAYEE 24000 = payeeSpec 24000 ∧
    calculatePAYEE 24000 = 0 ∧
    calculatePAYEE 32333 = 2083.25 :=
  calculatePAYEE_matches_spec 24000 (by norm_num)

/-- C3: `calculateNetPay g` carries exactly the spec's fields — `grossPay`
passes through, `sha` and `housingLevy` are the rounded flat percentages,
`payee` is the bracket tax, `totalDeductions` is the rounded sum of the
three, `netPay` is the rounded difference — and at `g = 40000` the concrete
reference breakdown is produced. -/
theorem calculateNetPay_matches_spec (g : ℚ) :
    (calculateNetPay g).grossPay = g ∧
    (calculateNetPay g).sha = round2 (g * 0.0275) ∧
    (calculateNetPay g).housingLevy = round2 (g * 0.015) ∧
    (calculateNetPay g).payee = calculatePAYEE g ∧
    (calculateNetPay g).totalDeductions =
      round2 ((calculateNetPay g).sha + (calculateNetPay g).payee +
        (calculateNetPay g).housingLevy) ∧
    (calculateNetPay g).netPay =
      round2 (g - (calculateNetPay g).totalDeductions) ∧
    calculateNetPay 40000 =
      { grossPay := 40000, sha := 1100, payee := 4383.35, housingLevy := 600,
        totalDeductions := 6083.35, netPay := 33916.65 } := by
  refine ⟨rfl, rfl, rfl, rfl, rfl, rfl, ?_⟩
  norm_num [calculateNetPay, calculateSHA, calculatePAYEE, calculateHousingLevy, round2]

/-- C4: for `g ≥ 0`, the breakdown reconciles: `netPay + totalDeductions`
is within one cent of `g`, and `totalDeductions` is non-negative. -/
theorem calculateNetPay_reconciles (g : ℚ) (hg : 0 ≤ g) :
    |(calculateNetPay g).netPay + (calculateNetPay g).totalDeductions - g| ≤ 0.01 ∧
    0 ≤ (calculateNetPay g).totalDeductions := by
  have hsha : 0 ≤ calculateSHA g := by
    unfold calculateSHA
    exact round2_nonneg (by positivity)
  have hpayee : 0 ≤ calculatePAYEE g := by
    unfold calculatePAYEE
    exact le_max_left 0 _
  have hlevy : 0 ≤ calculateHousingLevy g := by
    unfold calculateHousingLevy
    exact round2_nonneg (by positivity)
  have htd : 0 ≤ (calculateNetPay g).totalDeductions := by
    show 0 ≤ round2 (calculateSHA g + calculatePAYEE g + calculateHousingLevy g)
    exact round2_nonneg (by linarith)
  refine ⟨?_, htd⟩
  have hnet : (calculateNetPay g).netPay =
      round2 (g - (calculateNetPay g).totalDeductions) := rfl
  have h := abs_round2_sub_le (g - (calculateNetPay g).totalDeductions)
  rw [hnet]
  calc |round2 (g - (calculateNetPay g).totalDeductions) +
        (calculateNetPay g).totalDeductions - g|
      = |round2 (g - (calculateNetPay g).totalDeductions) -
          (g - (calculateNetPay g).totalDeductions)| := by ring_nf
    _ ≤ 1 / 200 := h
    _ ≤ 0.01 := by norm_num

/-- C4 witness: the reconciliation bound at the concrete input `g = 40000`. -/
theorem calculateNetPay_reconciles_witness :
    |(calculateNetPay 40000).netPay + (calculateNetPay 40000).totalDeductions -
      40000| ≤ 0.01 ∧
    0 ≤ (calculateNetPay 40000).totalDeductions :=
  calculateNetPay_reconciles 40000 (by norm_num)

/-- C7 counterexample: `calculateSHA` does not fail on negative gross pay —
it returns the (negative) number `-2.75` at `g = -100`, and `calculateNetPay`
likewise returns a full numeric breakdown there; no error path exists in the
calculator. -/
theorem calculateSHA_negative_returns_number :
    calculateSHA (-100) = -2.75 ∧
    calculateNetPay (-100) =
      { grossPay := -100, sha := -2.75, payee := 0, housingLevy := -1.5,
        totalDeductions := -4.25, netPay := -95.75 } := by
  constructor
  · norm_num [calculateSHA, round2]
  · norm_num [calculateNetPay, calculateSHA, calculatePAYEE, calculateHousingLevy, round2]

/-- C7 amended: the calculator performs no input validation — for negative
gross pay `calculateSHA` still returns the rounded percentage (and
`calculateNetPay` embeds it in a breakdown); rejection of negative input is
done only by the separate form validator `validateGrossPay`. -/
theorem calculateSHA_no_input_validation (g : ℚ) (hg : g < 0) :
    calculateSHA g = round2 (g * 0.0275) ∧
    (calculateNetPay g).sha = calculateSHA g ∧
    (validateGrossPay g).isValid = false := by
  refine ⟨rfl, rfl, ?_⟩
  unfold validateGrossPay
  rw [if_pos hg]

/-- C7 amended witness: the concrete input `g = -100`. -/
theorem calculateSHA_no_input_validation_witness :
    calculateSHA (-100) = round2 ((-100) * 0.0275) ∧
    (calculateNetPay (-100)).sha = calculateSHA (-100) ∧
    (validateGrossPay (-100)).isValid = false :=
  calculateSHA_no_input_validation (-100) (by norm_num)

/-! ## Success-shape lemmas for the ledger operations -/

/-- A successful `createCategory` appends exactly one fresh category. -/
theorem createCategory_ok_shape {cs cs' : List Category} {name : String}
    {amt : ℚ} {nid : String} (h : createCategory cs name amt nid = .ok cs') :
    cs' = cs ++ [{ id := nid, name := jsTrim name, plannedAmount := amt, actualSpent := 0, expenses := [] }] := by
  simp only [createCategory] at h
  split_ifs at h <;> simp_all

/-- A successful `updateCategory` replaces the found category in place,
keeping its `id`, `actualSpent` and `expenses`. -/
theorem updateCategory_ok_shape {cs cs' : List Category} {id name : String}
    {amt : ℚ} (h : updateCategory cs id name amt = .ok cs') :
    ∃ i, cs.findIdx? (fun c => c.id == id) = some i ∧ i < cs.length ∧
      cs' = cs.set i { cs.getD i default with name := jsTrim name, plannedAmount := amt } := by
  simp only [updateCategory] at h
  split at h
  · exact absurd h (by simp)
  · next i hfind =>
    refine ⟨i, hfind, (List.findIdx?_eq_some_iff_findIdx_eq.mp hfind).1, ?_⟩
    split_ifs at h <;> simp_all

/-- A successful `deleteCategory` filters the category out. -/
theorem deleteCategory_ok_shape {cs cs' : List Category} {id : String}
    (h : deleteCategory cs id = .ok cs') :
    cs' = cs.filter (fun category => category.id != id) := by
  simp only [deleteCategory] at h
  split_ifs at h <;> simp_all

/-- A successful `addExpense` rewrites exactly the found category, appending
the expense and recomputing `actualSpent` as the full sum. -/
theorem addExpense_ok_shape {cs cs' : List Category} {cid : String} {amt : ℚ}
    {d dt nid : String} (h : addExpense cs cid amt d dt nid = .ok cs') :
    ∃ i, cs.findIdx? (fun c => c.id == cid) = some i ∧ i < cs.length ∧
      cs' = cs.set i
        (let category := cs.getD i default
         let newExpenses := category.expenses ++ [{ id := nid, categoryId := cid, amount := amt, description := jsTrim d, date := dt }]
         { category with expenses := newExpenses, actualSpent := sumAmounts newExpenses }) := by
  simp only [addExpense] at h
  split_ifs at h
  split at h
  · exact absurd h (by simp)
  · next i hfind =>
    refine ⟨i, hfind, (List.findIdx?_eq_some_iff_findIdx_eq.mp hfind).1, ?_⟩
    simp_all

/-- A successful `updateExpense` rewrites exactly the owning category,
replacing the expense's fields and recomputing `actualSpent` as the full sum. -/
theorem updateExpense_ok_shape {cs cs' : List Category} {eid : String}
    {amt : ℚ} {d dt : String} (h : updateExpense cs eid amt d dt = .ok cs') :
    ∃ i, cs.findIdx? (fun c => c.expenses.any (fun e => e.id == eid)) = some i ∧
      i < cs.length ∧
      ∃ j, (cs.getD i default).expenses.findIdx? (fun e => e.id == eid) = some j ∧
      cs' = cs.set i
        (let category := cs.getD i default
         let newExpenses := category.expenses.set j { category.expenses.getD j default with amount := amt, description := jsTrim d, date := dt }
         { category with expenses := newExpenses, actualSpent := sumAmounts newExpenses }) := by
  simp only [updateExpense] at h
  split_ifs at h
  split at h
  · exact absurd h (by simp)
  · next i hfind =>
    split at h
    · exact absurd h (by simp)
    · next j hfind2 =>
      refine ⟨i, hfind, (List.findIdx?_eq_some_iff_findIdx_eq.mp hfind).1, j, hfind2, ?_⟩
      simp_all

/-- A successful `deleteExpense` rewrites exactly the owning category,
filtering the expense out and recomputing `actualSpent` as the full sum. -/
theorem deleteExpense_ok_shape {cs cs' : List Category} {eid : String}
    (h : deleteExpense cs eid = .ok cs') :
    ∃ i, cs.findIdx? (fun c => c.expenses.any (fun e => e.id == eid)) = some i ∧
      i < cs.length ∧
      cs' = cs.set i
        (let category := cs.getD i default
         let newExpenses := category.expenses.filter (fun e => e.id != eid)
         { category with expenses := newExpenses, actualSpent := sumAmounts newExpenses }) := by
  simp only [deleteExpense] at h
  split at h
  · exact absurd h (by simp)
  · next i hfind =>
    refine ⟨i, hfind, (List.findIdx?_eq_some_iff_findIdx_eq.mp hfind).1, ?_⟩
    simp_all

/-- An element accessed through `getD` inside bounds is a member. -/
theorem getD_mem_of_lt {l : List Category} {i : ℕ} (h : i < l.length) :
    l.getD i default ∈ l := by
  rw [List.getD_eq_getElem?_getD, List.getElem?_eq_getElem h]
  exact List.getElem_mem h

/-- Every successful single operation preserves the ledger invariant. -/
theorem applyOp_preserves_invariant {cs cs' : List Category} {op : LedgerOp}
    (hinv : LedgerInvariant cs) (h : applyOp cs op = .ok cs') :
    LedgerInvariant cs' := by
  cases op with
  | createCat name plannedAmount newId =>
    have hs := createCategory_ok_shape h
    subst hs
    intro c hc
    rcases List.mem_append.mp hc with hc | hc
    · exact hinv c hc
    · simp only [List.mem_singleton] at hc
      subst hc
      simp [sumAmounts]
  | updateCat id name plannedAmount =>
    obtain ⟨i, _, hlt, hs⟩ := updateCategory_ok_shape h
    subst hs
    intro c hc
    rcases List.mem_or_eq_of_mem_set hc with hc | rfl
    · exact hinv c hc
    · simpa using hinv _ (getD_mem_of_lt hlt)
  | deleteCat id =>
    have hs := deleteCategory_ok_shape h
    subst hs
    intro c hc
    exact hinv c (List.mem_filter.mp hc).1
  | addExp categoryId amount description date newId =>
    obtain ⟨i, _, hlt, hs⟩ := addExpense_ok_shape h
    subst hs
    intro c hc
    rcases List.mem_or_eq_of_mem_set hc with hc | rfl
    · exact hinv c hc
    · rfl
  | updateExp expenseId amount description date =>
    obtain ⟨i, _, hlt, j, _, hs⟩ := updateExpense_ok_shape h
    subst hs
    intro c hc
    rcases List.mem_or_eq_of_mem_set hc with hc | rfl
    · exact hinv c hc
    · rfl
  | deleteExp expenseId =>
    obtain ⟨i, _, hlt, hs⟩ := deleteExpense_ok_shape h
    subst hs
    intro c hc
    rcases List.mem_or_eq_of_mem_set hc with hc | rfl
    · exact hinv c hc
    · rfl

/-- C1: starting from any snapshot satisfying the ledger invariant, any
sequence of successful ledger operations ends in a snapshot satisfying the
invariant: every category's `actualSpent` equals the sum of its expenses'
amounts. -/
theorem ledger_invariant_preserved (cs cs' : List Category)
    (ops : List LedgerOp) (hinv : LedgerInvariant cs)
    (h : applyOps cs ops = .ok cs') : LedgerInvariant cs' := by
  induction ops generalizing cs with
  | nil =>
    simp only [applyOps] at h
    cases h
    exact hinv
  | cons op ops ih =>
    simp only [applyOps] at h
    split at h
    · next heq => exact ih _ (applyOp_preserves_invariant hinv heq) h
    · exact absurd h (by simp)

/-- Reading back the position just written by `set`. -/
theorem getD_set_self {l : List Category} {i : ℕ} {a : Category}
    (h : i < l.length) : (l.set i a).getD i default = a := by
  rw [List.getD_eq_getElem?_getD, List.getElem?_set_self h]
  rfl

/-- `findIdx?` is unchanged by overwriting position `i` with an element on
which the predicate agrees with the old occupant. -/
theorem findIdx?_set_eq {α : Type} [Inhabited α] (p : α → Bool) :
    ∀ (l : List α) (i n : ℕ) (a : α), i < l.length →
      p a = p (l.getD i default) →
      (l.set i a).findIdx? p n = l.findIdx? p n := by
  intro l
  induction l with
  | nil =>
    intro i n a h
    simp at h
  | cons x xs ih =>
    intro i n a h hp
    cases i with
    | zero =>
      simp only [List.getD_cons_zero] at hp
      simp only [List.set_cons_zero, List.findIdx?_cons, hp]
    | succ j =>
      simp only [List.getD_cons_succ] at hp
      simp only [List.set_cons_succ, List.findIdx?_cons]
      split
      · rfl
      · exact ih j (n + 1) a (by simpa using h) hp

/-- A scan over `enum` that ignores position `i` is unchanged by overwriting
position `i`. -/
theorem enum_any_set_eq {α : Type} (l : List α) (i : ℕ) (a : α)
    (f : ℕ × α → Bool) (hfi : ∀ b : α, f (i, b) = false) :
    ((l.set i a).enum.any f) = (l.enum.any f) := by
  apply Bool.eq_iff_iff.mpr
  simp only [List.any_eq_true]
  constructor
  · rintro ⟨⟨j, c⟩, hmem, hf⟩
    rw [List.mk_mem_enum_iff_getElem?] at hmem
    have hne : i ≠ j := by
      rintro rfl
      rw [hfi c] at hf
      exact Bool.false_ne_true hf
    rw [List.getElem?_set_ne hne] at hmem
    exact ⟨(j, c), List.mk_mem_enum_iff_getElem?.mpr hmem, hf⟩
  · rintro ⟨⟨j, c⟩, hmem, hf⟩
    rw [List.mk_mem_enum_iff_getElem?] at hmem
    have hne : i ≠ j := by
      rintro rfl
      rw [hfi c] at hf
      exact Bool.false_ne_true hf
    exact ⟨(j, c),
      List.mk_mem_enum_iff_getElem?.mpr ((List.getElem?_set_ne hne).trans hmem), hf⟩

/-! ## Claim theorems: ledger -/

/-- C1 witness: a concrete run — create a category, add a 125.5 expense and
a 74.5 expense, update the first to 10, delete the second — keeps the
invariant. -/
theorem ledger_invariant_preserved_witness :
    LedgerInvariant [] ∧
    LedgerInvariant [{ id := "c1", name := "Food", plannedAmount := 100, actualSpent := 10, expenses := [{ id := "e1", categoryId := "c1", amount := 10, description := "abc", date := "2025-01-02" }] }] := by
  constructor
  · intro c hc
    cases hc
  · refine ledger_invariant_preserved [] _
      [.createCat "Food" 100 "c1",
       .addExp "c1" 125.5 "abc" "2025-01-02" "e1",
       .addExp "c1" 74.5 "def" "2025-01-03" "e2",
       .updateExp "e1" 10 "abc" "2025-01-02",
       .deleteExp "e2"]
      (fun c hc => by cases hc) ?_
    simp only [applyOps, applyOp, createCategory, addExpense, updateExpense,
      deleteExpense, sumAmounts]
    norm_num [show jsTrim "Food" = "Food" from by decide,
      show jsTrim "abc" = "abc" from by decide,
      show jsTrim "def" = "def" from by decide,
      show "Food".length = 4 from by decide,
      show "abc".length = 3 from by decide,
      show "def".length = 3 from by decide,
      show (("e1" : String) != "e2") = true from by decide,
      show (("e2" : String) != "e2") = false from by decide]

/-- C10: every successful expense mutation rewrites exactly one category —
all other positions of the snapshot are equal to the input's, and the
rewritten category keeps its `id`, `name` and `plannedAmount` (the input
snapshot itself is a pure value and is never mutated: the operations return
a fresh list). -/
theorem expense_ops_frame (cs : List Category) (categoryId : String)
    (amount : ℚ) (description date newId expenseId : String) :
    (∀ cs', addExpense cs categoryId amount description date newId = .ok cs' →
      FramePreserved cs cs') ∧
    (∀ cs', updateExpense cs expenseId amount description date = .ok cs' →
      FramePreserved cs cs') ∧
    (∀ cs', deleteExpense cs expenseId = .ok cs' → FramePreserved cs cs') := by
  refine ⟨?_, ?_, ?_⟩
  · intro cs' h
    obtain ⟨i, _, hlt, hs⟩ := addExpense_ok_shape h
    subst hs
    exact ⟨List.length_set .., i, hlt,
      fun j hj => List.getElem?_set_ne (Ne.symm hj),
      by rw [getD_set_self hlt], by rw [getD_set_self hlt],
      by rw [getD_set_self hlt]⟩
  · intro cs' h
    obtain ⟨i, _, hlt, j, _, hs⟩ := updateExpense_ok_shape h
    subst hs
    exact ⟨List.length_set .., i, hlt,
      fun j hj => List.getElem?_set_ne (Ne.symm hj),
      by rw [getD_set_self hlt], by rw [getD_set_self hlt],
      by rw [getD_set_self hlt]⟩
  · intro cs' h
    obtain ⟨i, _, hlt, hs⟩ := deleteExpense_ok_shape h
    subst hs
    exact ⟨List.length_set .., i, hlt,
      fun j hj => List.getElem?_set_ne (Ne.symm hj),
      by rw [getD_set_self hlt], by rw [getD_set_self hlt],
      by rw [getD_set_self hlt]⟩

/-- C10 witness: a concrete `addExpense` run on a two-category snapshot
satisfies the frame condition. -/
theorem expense_ops_frame_witness :
    FramePreserved
      [{ id := "c1", name := "Food", plannedAmount := 100, actualSpent := 0, expenses := [] },
       { id := "c2", name := "Rent", plannedAmount := 50, actualSpent := 0, expenses := [] }]
      [{ id := "c1", name := "Food", plannedAmount := 100, actualSpent := 0, expenses := [] },
       { id := "c2", name := "Rent", plannedAmount := 50, actualSpent := 5, expenses := [{ id := "e1", categoryId := "c2", amount := 5, description := "abc", date := "2025-01-02" }] }] := by
  refine (expense_ops_frame _ "c2" 5 "abc" "2025-01-02" "e1" "").1 _ ?_
  simp only [addExpense, sumAmounts]
  norm_num [show jsTrim "abc" = "abc" from by decide,
    show "abc".length = 3 from by decide,
    show List.findIdx? (fun c : Category => c.id == "c2")
      [{ id := "c1", name := "Food", plannedAmount := 100, actualSpent := 0, expenses := [] },
       { id := "c2", name := "Rent", plannedAmount := 50, actualSpent := 0, expenses := [] }] = some 1 from by decide]

/-- C8: on a snapshot whose expenses are owner-consistent and which contains
a category with id `X`, `deleteCategory` succeeds and removes the category
together with every expense referencing `X` (cascade), after which
`getExpensesByCategory X` fails with `NotFound`; on a snapshot with no such
category, `deleteCategory` fails with `NotFound`. -/
theorem deleteCategory_cascades (cs : List Category) (X : String) :
    ((∀ c ∈ cs, ∀ e ∈ c.expenses, e.categoryId = c.id) →
      (∃ c ∈ cs, c.id = X) →
      ∃ cs', deleteCategory cs X = .ok cs' ∧
        (∀ c ∈ cs', c.id ≠ X) ∧
        (∀ c ∈ cs', ∀ e ∈ c.expenses, e.categoryId ≠ X) ∧
        getExpensesByCategory cs' X = .error (.notFound "Category not found")) ∧
    ((∀ c ∈ cs, c.id ≠ X) →
      deleteCategory cs X = .error (.notFound "Category not found")) := by
  constructor
  · intro hwf hmem
    obtain ⟨c₀, hc₀, hid⟩ := hmem
    have hany : (cs.any fun category => category.id == X) = true :=
      List.any_eq_true.mpr ⟨c₀, hc₀, by simp [hid]⟩
    have hdel : deleteCategory cs X =
        .ok (cs.filter fun category => category.id != X) := by
      simp only [deleteCategory]
      rw [if_pos hany]
    refine ⟨_, hdel, ?_, ?_, ?_⟩
    · intro c hc
      have := (List.mem_filter.mp hc).2
      simpa using this
    · intro c hc e he
      have hcs := (List.mem_filter.mp hc).1
      have hne : c.id ≠ X := by simpa using (List.mem_filter.mp hc).2
      rw [hwf c hcs e he]
      exact hne
    · have hnone : (cs.filter fun category => category.id != X).find?
          (fun category => category.id == X) = none := by
        rw [List.find?_eq_none]
        intro c hc
        have : c.id ≠ X := by simpa using (List.mem_filter.mp hc).2
        simp [this]
      simp only [getExpensesByCategory]
      rw [hnone]
  · intro habs
    have hany : (cs.any fun category => category.id == X) = false := by
      rw [← Bool.not_eq_true, List.any_eq_true]
      rintro ⟨c, hc, hid⟩
      exact habs c hc (by simpa using hid)
    simp only [deleteCategory]
    rw [if_neg (by simp [hany])]

/-- C8 witness: deleting category `c1` from a concrete two-category snapshot
cascades its expense away, and deleting a missing id fails with `NotFound`. -/
theorem deleteCategory_cascades_witness :
    (∃ cs', deleteCategory
        [{ id := "c1", name := "Food", plannedAmount := 100, actualSpent := 5, expenses := [{ id := "e1", categoryId := "c1", amount := 5, description := "abc", date := "2025-01-02" }] },
         { id := "c2", name := "Rent", plannedAmount := 50, actualSpent := 0, expenses := [] }] "c1" = .ok cs' ∧
      (∀ c ∈ cs', c.id ≠ "c1") ∧
      (∀ c ∈ cs', ∀ e ∈ c.expenses, e.categoryId ≠ "c1") ∧
      getExpensesByCategory cs' "c1" = .error (.notFound "Category not found")) ∧
    deleteCategory [] "c1" = .error (.notFound "Category not found") := by
  constructor
  · exact (deleteCategory_cascades _ "c1").1
      (by intro c hc e he; fin_cases hc <;> fin_cases he <;> rfl)
      ⟨_, List.mem_cons_self _ _, rfl⟩
  · exact (deleteCategory_cascades [] "c1").2 (by intro c hc; cases hc)

/-- Full inversion of a successful `updateCategory`, keeping the validation
facts of the run. -/
theorem updateCategory_ok_inv {cs cs' : List Category} {id name : String}
    {amt : ℚ} (h : updateCategory cs id name amt = .ok cs') :
    ∃ i, cs.findIdx? (fun c => c.id == id) = some i ∧ i < cs.length ∧
      ((jsTrim name).length == 0) = false ∧
      (cs.enum.any fun p =>
        p.1 != i && (jsToLower p.2.name == jsToLower (jsTrim name))) = false ∧
      ¬amt < 0 ∧
      cs' = cs.set i { cs.getD i default with name := jsTrim name, plannedAmount := amt } := by
  simp only [updateCategory] at h
  split at h
  · exact absurd h (by simp)
  · next i hfind =>
    split_ifs at h with h1 h2 h3
    refine ⟨i, hfind, (List.findIdx?_eq_some_iff_findIdx_eq.mp hfind).1,
      by simpa using h1, by simpa using h2, h3, ?_⟩
    simp_all

/-- C9: if `updateCategory` succeeds, applying it again with identical
arguments to the result succeeds and returns the same snapshot. -/
theorem updateCategory_idempotent (cs cs' : List Category) (id name : String)
    (amt : ℚ) (h : updateCategory cs id name amt = .ok cs') :
    updateCategory cs' id name amt = .ok cs' := by
  obtain ⟨i, hfind, hlt, hname, hdup, hamt, hset⟩ := updateCategory_ok_inv h
  have hfind' : cs'.findIdx? (fun c => c.id == id) = some i := by
    rw [hset]
    exact (findIdx?_set_eq (fun c => c.id == id) cs i 0
      { cs.getD i default with name := jsTrim name, plannedAmount := amt }
      hlt rfl).trans hfind
  have hdup' : (cs'.enum.any fun p =>
      p.1 != i && (jsToLower p.2.name == jsToLower (jsTrim name))) = false := by
    rw [hset, enum_any_set_eq _ _ _ _ (fun b => by simp)]
    exact hdup
  simp only [updateCategory, hfind']
  rw [if_neg (by simp [hname]), if_neg (by simp [hdup']), if_neg hamt]
  subst hset
  rw [getD_set_self hlt, List.set_set]

/-- C9 witness: a concrete successful `updateCategory` run is idempotent. -/
theorem updateCategory_idempotent_witness :
    updateCategory
      [{ id := "c1", name := "Rent", plannedAmount := 100, actualSpent := 0, expenses := [] }]
      "c1" "Food" 80 =
      .ok [{ id := "c1", name := "Food", plannedAmount := 80, actualSpent := 0, expenses := [] }] ∧
    updateCategory
      [{ id := "c1", name := "Food", plannedAmount := 80, actualSpent := 0, expenses := [] }]
      "c1" "Food" 80 =
      .ok [{ id := "c1", name := "Food", plannedAmount := 80, actualSpent := 0, expenses := [] }] := by
  have h1 : updateCategory
      [{ id := "c1", name := "Rent", plannedAmount := 100, actualSpent := 0, expenses := [] }]
      "c1" "Food" 80 =
      .ok [{ id := "c1", name := "Food", plannedAmount := 80, actualSpent := 0, expenses := [] }] := by
    simp only [updateCategory]
    norm_num [show jsTrim "Food" = "Food" from by decide,
      show "Food".length = 4 from by decide,
      show jsToLower "Rent" = "rent" from by decide,
      show jsToLower "Food" = "food" from by decide,
      show (("rent" : String) == "food") = false from by decide]
  exact ⟨h1, updateCategory_idempotent _ _ "c1" "Food" 80 h1⟩

/-- C6 counterexample: the claim requires `createCategory` to reject names
whose trimmed length is below 2, but the code accepts the one-character name
`"A"`; the length rule is enforced only by the separate form validator
`validateCategoryName`. -/
theorem createCategory_accepts_short_name :
    createCategory [] "A" 0 "c1" =
      .ok [{ id := "c1", name := "A", plannedAmount := 0, actualSpent := 0, expenses := [] }] ∧
    (jsTrim "A").length = 1 ∧
    (validateCategoryName "A" []).isValid = false := by
  refine ⟨?_, by decide, by decide⟩
  simp only [createCategory]
  rw [if_neg (by decide), if_neg (by decide), if_neg (by norm_num)]
  rfl

/-- C6 amended: `createCategory` fails exactly when the trimmed name is
empty (`ValidationError`), the name is a case-insensitive duplicate of an
existing category's name (`DuplicateName`), or `plannedAmount < 0`
(`ValidationError`) — checked in that order, with no partial mutation — and
otherwise appends a single new category with the trimmed name, the given
planned amount, `actualSpent = 0`, empty expenses and the fresh id. -/
theorem createCategory_spec (cs : List Category) (name : String) (amt : ℚ)
    (nid : String) :
    (((jsTrim name).length == 0) = true →
      createCategory cs name amt nid =
        .error (.validationError "Category name cannot be empty")) ∧
    (((jsTrim name).length == 0) = false →
      (cs.any fun c => jsToLower c.name == jsToLower (jsTrim name)) = true →
      createCategory cs name amt nid =
        .error (.duplicateName "Category name already exists")) ∧
    (((jsTrim name).length == 0) = false →
      (cs.any fun c => jsToLower c.name == jsToLower (jsTrim name)) = false →
      amt < 0 →
      createCategory cs name amt nid =
        .error (.validationError "Planned amount must be a positive number")) ∧
    (((jsTrim name).length == 0) = false →
      (cs.any fun c => jsToLower c.name == jsToLower (jsTrim name)) = false →
      0 ≤ amt →
      createCategory cs name amt nid =
        .ok (cs ++ [{ id := nid, name := jsTrim name, plannedAmount := amt, actualSpent := 0, expenses := [] }])) := by
  refine ⟨?_, ?_, ?_, ?_⟩
  · intro h1
    simp only [createCategory]
    rw [if_pos h1]
  · intro h1 h2
    simp only [createCategory]
    rw [if_neg (by simp [h1]), if_pos h2]
  · intro h1 h2 h3
    simp only [createCategory]
    rw [if_neg (by simp [h1]), if_neg (by simp [h2]), if_pos h3]
  · intro h1 h2 h3
    simp only [createCategory]
    rw [if_neg (by simp [h1]), if_neg (by simp [h2]), if_neg (not_lt.mpr h3)]

/-- C6 amended witness: the success branch at a concrete input. -/
theorem createCategory_spec_witness :
    ((jsTrim "Food").length == 0) = false ∧
    createCategory [] "Food" 100 "c1" =
      .ok [{ id := "c1", name := "Food", plannedAmount := 100, actualSpent := 0, expenses := [] }] :=
  ⟨by decide, (createCategory_spec [] "Food" 100 "c1").2.2.2 (by decide)
    (by decide) (by norm_num)⟩

/-- C5: for every confirmed baseline and every optimistic expense mutation
whose durable write fails, the reconciler's visible state reverts exactly to
the pre-mutation baseline (no trace of the speculative snapshot remains
visible), the mutation ends `rolledBack`, and the surfaced error is
`persistenceError`. -/
theorem reconciler_rollback (baseline : List Category) (action : ExpenseAction) :
    (settleMutation (beginMutation baseline action) .failed).visible = baseline ∧
    (settleMutation (beginMutation baseline action) .failed).newBaseline = baseline ∧
    (settleMutation (beginMutation baseline action) .failed).phase = .rolledBack ∧
    (settleMutation (beginMutation baseline action) .failed).error =
      some .persistenceError :=
  ⟨rfl, rfl, rfl, rfl⟩

end BudgetPlanner
